import Mathlib

/-!
Verification of the in-memory spreadsheet evaluation engine
(`src/lib/spreadsheet.ts`, class `Spreadsheet`) against its design
specification.  The engine keeps a committed map `cells` and a staging map
`shadowCells` from cell id to parsed formula AST, evaluates an edited cell,
propagates recomputation to dependents, detects (some) reference cycles and
commits or rolls back the edit.  Every definition below is a direct
translation of the corresponding source function; deviations forced by the
shallow embedding (explicit state passing, an explicit fuel bound for the
unbounded source recursion, exact integer arithmetic for the IEEE doubles
actually exercised) are noted where they occur.
-/

/-- Cell identifiers are strings (column letters + row number); equality is
structural string equality, as in the source's `===` comparisons. -/
abbrev CellId := String

/-- Formula AST as produced by the external parser collaborator.

Modelled from the spec: the parser and the `CellRef`/`toText` reference
resolver live in the external `expr-parser` module, which is not part of
the evaluation-engine source.  Per spec §3 a `Ref` stores a relative
reference that is resolved against the cell the formula is embedded in
(`ast.toText(CellRef.parseRef(cellId))` in the source).  In the engine every
formula is only ever resolved against its own cell — in `evaluateFormula`
and in `isDependent` alike the base of resolution is the cell holding the
formula — so the `ref` node stores the already-resolved absolute target
cell id. -/
inductive Ast where
  | num (value : Int)
  | ref (target : CellId)
  | app (fn : String) (kids : List Ast)

/-- A JavaScript object used as a map from cell ids, modelled as an
association list: string keys iterate in insertion order, setting an
existing key keeps its position, setting a fresh key appends it. -/
abbrev Jmap (α : Type) := List (CellId × α)

/-- `m[k]`, with `none` when `k` is absent (`hasOwnProperty` false). -/
def objGet {α : Type} (m : Jmap α) (k : CellId) : Option α :=
  match m with
  | [] => none
  | (k', v) :: rest => if k' = k then some v else objGet rest k

/-- `m[k] = v`: overwrite in place if present, append otherwise. -/
def objSet {α : Type} (m : Jmap α) (k : CellId) (v : α) : Jmap α :=
  match m with
  | [] => [(k, v)]
  | (k', v') :: rest => if k' = k then (k, v) :: rest else (k', v') :: objSet rest k v

/-- `delete m[k]`. -/
def objDelete {α : Type} (m : Jmap α) (k : CellId) : Jmap α :=
  match m with
  | [] => []
  | (k', v') :: rest => if k' = k then objDelete rest k else (k', v') :: objDelete rest k

/-- The map from cell id to staged/committed AST (`{ [cellId: string]: Ast }`). -/
abbrev Smap := Jmap Ast

/-- The per-edit result map (`type Updates = { [cellId: string]: number }`).
JavaScript numbers are IEEE doubles; every computation exercised by the
claims is exact small-integer arithmetic, modelled with `Int`. -/
abbrev Updates := Jmap Int

/-- The engine state: `cells` is the committed map, `shadowCells` the
staging map (the two private fields of class `Spreadsheet`). -/
structure Spreadsheet where
  cells : Smap
  shadowCells : Smap

/-- The operator dispatch table `FNS` (spreadsheet.ts lines 197-204): `-` is
binary subtraction with two operands and unary negation with one.  An
operator outside the table makes the source throw (`Unknown operator`); an
arity outside the ones listed would coerce `undefined` in JavaScript, which
the parser contract (spec §4.2/§6) excludes — both are collapsed to `none`
here and treated as a fault by the evaluator.  `/` is JavaScript float
division; no claim exercises a non-exact quotient, so exact `Int`
arithmetic is faithful on every input appearing in this file. -/
def FNS (fn : String) (args : List Int) : Option Int :=
  match fn, args with
  | "+", [a, b] => some (a + b)
  | "-", [a] => some (-a)
  | "-", [a, b] => some (a - b)
  | "*", [a, b] => some (a * b)
  | "/", [a, b] => some (a / b)
  | "min", [a, b] => some (min a b)
  | "max", [a, b] => some (max a b)
  | _, _ => none

/-- `recoverCell` (lines 180-184): restore the staged AST for `cellId` from
the committed map if a committed entry exists; otherwise do nothing — in
particular the staged entry is NOT removed when there is no committed
counterpart. -/
def recoverCell (ss : Spreadsheet) (cellId : CellId) : Spreadsheet :=
  match objGet ss.cells cellId with
  | some ast => { ss with shadowCells := objSet ss.shadowCells cellId ast }
  | none => ss

/-- `coverCell` (lines 187-191): copy the staged AST for `cellId` into the
committed map if a staged entry exists. -/
def coverCell (ss : Spreadsheet) (cellId : CellId) : Spreadsheet :=
  match objGet ss.shadowCells cellId with
  | some ast => { ss with cells := objSet ss.cells cellId ast }
  | none => ss

mutual
/-- `isDependent` (lines 168-177): does `ast` (the formula stored at
`cellId`) contain a reference resolving to `baseCellId`?  Resolution of a
`ref` is against the containing cell `cellId` (see `Ast.ref`). -/
def isDependent (ast : Ast) (cellId : CellId) (baseCellId : CellId) : Bool :=
  match ast with
  | .num _ => false
  | .ref target => target == baseCellId
  | .app _ kids => isDependentList kids cellId baseCellId

/-- The `ast.kids.some(...)` walk of `isDependent` over operand lists. -/
def isDependentList (kids : List Ast) (cellId : CellId) (baseCellId : CellId) : Bool :=
  match kids with
  | [] => false
  | k :: rest => isDependent k cellId baseCellId || isDependentList rest cellId baseCellId
end

/-- The `for (const cellId in this.shadowCells)` scan of
`findDependentCells` (lines 156-165), over an explicit entry list. -/
def findDependentCellsAux (entries : Smap) (baseCellId : CellId) : List CellId :=
  match entries with
  | [] => []
  | (cellId, ast) :: rest =>
    if isDependent ast cellId baseCellId
    then cellId :: findDependentCellsAux rest baseCellId
    else findDependentCellsAux rest baseCellId

/-- `findDependentCells` (lines 156-165): every staged cell whose formula
directly references `baseCellId`. -/
def findDependentCells (ss : Spreadsheet) (baseCellId : CellId) : List CellId :=
  findDependentCellsAux ss.shadowCells baseCellId

/-- The scan of `findDependentCells2` (lines 77-88). -/
def findDependentCells2Aux (entries : Smap) (baseCellId : CellId) : List CellId :=
  match entries with
  | [] => []
  | (cellId, ast) :: rest =>
    if cellId ≠ baseCellId ∧ ¬ (isDependent ast cellId baseCellId = true)
    then cellId :: findDependentCells2Aux rest baseCellId
    else findDependentCells2Aux rest baseCellId

/-- `findDependentCells2` (lines 77-88): every staged cell other than
`baseCellId` whose formula does NOT directly reference `baseCellId`; `eval`
deletes exactly these cells from the final update map. -/
def findDependentCells2 (ss : Spreadsheet) (baseCellId : CellId) : List CellId :=
  findDependentCells2Aux ss.shadowCells baseCellId

/-- Failure channel of the evaluator.  `circular` models a thrown
`CircularReferenceError` and carries the staging map as mutated by the
`recoverCell` call issued immediately before the throw (the only staging
mutation possible during evaluation); `fault` models any other thrown
`Error` (unknown operator, missing cell), which never mutates the staging
map; `fuelout` is an artifact of the embedding — the source recursion
carries no fuel at all and simply fails to terminate where every fuel
bound runs out. -/
inductive Failure where
  | circular (shadowCells : Smap)
  | fault
  | fuelout

/-- Exception propagation: a TypeScript exception aborts the caller unless
caught, so every intermediate result threads through `andThen`. -/
def andThen {α β : Type} (x : Except Failure α) (f : α → Except Failure β) :
    Except Failure β :=
  match x with
  | .error e => .error e
  | .ok a => f a

-- The recursive evaluator, `evaluateAndUpdate` / `evaluateFormula`
-- (lines 91-153), with the dependent-propagation loop (lines 104-109) and
-- the `operands.map` walk (line 139) split into `propagateDependents` and
-- `evalArgs`.  State the source mutates in place is passed and returned
-- explicitly: `updatedCells` (the per-edit memo) threads through every
-- call; the staging map rides inside `Failure.circular` when mutated (see
-- `Failure`).  `fuel` is a uniform termination budget decremented at every
-- recursive call; the source has no such bound (claim C7 concerns exactly
-- this).
mutual
/-- `evaluateAndUpdate` (lines 91-111): evaluate `cellId`'s staged formula,
record its value in `updatedCells`, then walk its direct dependents. -/
def evaluateAndUpdate (fuel : Nat) (ss : Spreadsheet) (cellId : CellId)
    (updatedCells : Updates) (parentCellId : CellId) :
    Except Failure (Int × Updates) :=
  match fuel with
  | 0 => .error .fuelout
  | fuel + 1 =>
    match objGet ss.shadowCells cellId with
    | none => .error .fault
    | some cell =>
      andThen (evaluateFormula fuel ss cellId cell updatedCells parentCellId)
        (fun ru =>
          let updatedCells := objSet ru.2 cellId ru.1
          let dependents := findDependentCells ss cellId
          andThen (propagateDependents fuel ss cellId dependents updatedCells parentCellId)
            (fun u => .ok (ru.1, u)))

/-- The `for (const dependent of dependents)` loop of `evaluateAndUpdate`
(lines 104-109).  The loop body reassigns its local `parentCellId` to the
dependent it recurses into, so after the first recursion the
`cellId === parentCellId` test fails for every later dependent. -/
def propagateDependents (fuel : Nat) (ss : Spreadsheet) (cellId : CellId)
    (dependents : List CellId) (updatedCells : Updates) (parentCellId : CellId) :
    Except Failure Updates :=
  match fuel with
  | 0 => .error .fuelout
  | fuel + 1 =>
    match dependents with
    | [] => .ok updatedCells
    | dependent :: rest =>
      if cellId = parentCellId ∧ ¬ (cellId = dependent) then
        andThen (evaluateAndUpdate fuel ss dependent updatedCells dependent)
          (fun ru => propagateDependents fuel ss cellId rest ru.2 dependent)
      else
        propagateDependents fuel ss cellId rest updatedCells parentCellId

/-- `evaluateFormula` (lines 114-153): evaluate one AST node of the formula
stored at `basecellId`.  A `ref` whose target equals `parentCellId` calls
`recoverCell` on `parentCellId` and throws `CircularReferenceError`; a
`ref` to a cell with no staging entry is `0`; a memoized target is read
from `updatedCells`; otherwise the target cell is evaluated recursively
with `parentCellId` passed through unchanged. -/
def evaluateFormula (fuel : Nat) (ss : Spreadsheet) (basecellId : CellId)
    (ast : Ast) (updatedCells : Updates) (parentCellId : CellId) :
    Except Failure (Int × Updates) :=
  match fuel with
  | 0 => .error .fuelout
  | fuel + 1 =>
    match ast with
    | .num value => .ok (value, updatedCells)
    | .ref target =>
      if target = parentCellId then
        .error (.circular (recoverCell ss parentCellId).shadowCells)
      else
        match objGet ss.shadowCells target with
        | none => .ok (0, updatedCells)
        | some _ =>
          match objGet updatedCells target with
          | some v => .ok (v, updatedCells)
          | none => evaluateAndUpdate fuel ss target updatedCells parentCellId
    | .app fn kids =>
      andThen (evalArgs fuel ss basecellId kids updatedCells parentCellId)
        (fun au =>
          match FNS fn au.1 with
          | some r => .ok (r, au.2)
          | none => .error .fault)

/-- The `operands.map(...)` walk of the `app` case (line 139): operands are
evaluated left to right, threading `updatedCells`. -/
def evalArgs (fuel : Nat) (ss : Spreadsheet) (basecellId : CellId)
    (kids : List Ast) (updatedCells : Updates) (parentCellId : CellId) :
    Except Failure (List Int × Updates) :=
  match fuel with
  | 0 => .error .fuelout
  | fuel + 1 =>
    match kids with
    | [] => .ok ([], updatedCells)
    | kid :: rest =>
      andThen (evaluateFormula fuel ss basecellId kid updatedCells parentCellId)
        (fun vu =>
          andThen (evalArgs fuel ss basecellId rest vu.2 parentCellId)
            (fun vsu => .ok (vu.1 :: vsu.1, vsu.2)))
end

/-- Error codes of a returned error `Result` (doc comment of `eval`,
lines 31-34). -/
inductive ErrCode where
  | SYNTAX
  | CIRCULAR_REF

/-- Observable outcome of one `eval` call: an ok `Result` carrying the
update map, an error `Result` carrying its code, a re-thrown non-circular
exception (`fault`), or fuel exhaustion (embedding artifact, see
`Failure`). -/
inductive EvalResult where
  | ok (updates : Updates)
  | err (code : ErrCode)
  | fault
  | fuelout

/-- `eval` (lines 36-74).

Modelled from the spec: the parser collaborator `parse(expr, cellId)` is
external (spec §6); `eval` receives its outcome directly.  `none` stands
for a failed parse — covering both a thrown parse exception and a non-ok
`Result`, which the source maps to the same `SYNTAX` error before touching
any state.  On a successful parse `eval` stages the AST, evaluates and
propagates, deletes every `findDependentCells2` cell from the update map,
commits via `coverCell` and returns the map; a `CircularReferenceError`
becomes a `CIRCULAR_REF` error `Result`, any other exception is re-thrown
(`fault`). -/
def eval (fuel : Nat) (ss : Spreadsheet) (cellId : CellId)
    (parsedExpression : Option Ast) : EvalResult × Spreadsheet :=
  match parsedExpression with
  | none => (.err .SYNTAX, ss)
  | some ast =>
    let staged : Spreadsheet := { ss with shadowCells := objSet ss.shadowCells cellId ast }
    match evaluateAndUpdate fuel staged cellId [] cellId with
    | .error (.circular shadow) => (.err .CIRCULAR_REF, { staged with shadowCells := shadow })
    | .error .fault => (.fault, staged)
    | .error .fuelout => (.fuelout, staged)
    | .ok ru =>
      let updatedCells := (findDependentCells2 staged cellId).foldl
        (fun u d => objDelete u d) ru.2
      (.ok updatedCells, coverCell staged cellId)

/-- The parse of `"c1+1"` at `b1` (addition of a reference and a literal,
per the spec §3 grammar); used by the two-cell-cycle scenarios. -/
def cycFormulaB1 : Ast := .app "+" [.ref "c1", .num 1]

/-- The parse of `"b1+1"` at `c1`. -/
def cycFormulaC1 : Ast := .app "+" [.ref "b1", .num 1]

/-- The staging/committed state reached by `eval "b1" "c1+1"` (ok, committed)
followed by `eval "c1" "b1+1"` (CIRCULAR_REF, leaving the bad `c1` staged
with no committed counterpart) followed by staging `a1 = "b1"`: committed
holds only `b1`, staging holds the two-cell reference cycle plus `a1`. -/
def cycState : Spreadsheet :=
  ⟨[("b1", cycFormulaB1)], [("b1", cycFormulaB1), ("c1", cycFormulaC1), ("a1", .ref "b1")]⟩

/-- A staging map holding `a1 = "b1"` and `b1 = "7"`, used to exhibit which
`parentCellId` the `ref` case of `evaluateFormula` recurses with. -/
def refDemo : Spreadsheet := ⟨[], [("a1", .ref "b1"), ("b1", .num 7)]⟩

-- ======================================================================
-- Helper lemmas
-- ======================================================================

/-- A thrown exception propagates through `andThen`. -/
theorem andThen_error {α β : Type} (e : Failure) (f : α → Except Failure β) :
    andThen (Except.error e) f = Except.error e := rfl

/-- Setting a key makes it readable. -/
theorem objGet_objSet {α : Type} (m : Jmap α) (k : CellId) (v : α) :
    objGet (objSet m k v) k = some v := by
  induction m with
  | nil => simp [objGet, objSet]
  | cons p rest ih =>
    by_cases h : p.1 = k
    · simp [objGet, objSet, h]
    · simp [objGet, objSet, h, ih]

/-- In `cycState`, evaluating `b1` reaches `c1` after exactly four fuel
decrements (`evaluateAndUpdate` to `evaluateFormula` to `evalArgs` to
`evaluateFormula` on the first operand `ref c1`) with the memo still empty,
so fuel exhaustion for `c1` forces fuel exhaustion for `b1`. -/
theorem cycStepB (i : Nat)
    (h : evaluateAndUpdate i cycState "c1" [] "a1" = .error .fuelout) :
    evaluateAndUpdate (i + 4) cycState "b1" [] "a1" = .error .fuelout := by
  have h1 : evaluateFormula (i + 1) cycState "b1" (.ref "c1") [] "a1" = .error .fuelout := h
  have h2 : evalArgs (i + 2) cycState "b1" [.ref "c1", .num 1] [] "a1" = .error .fuelout := by
    show andThen (evaluateFormula (i + 1) cycState "b1" (.ref "c1") [] "a1") _ = .error .fuelout
    rw [h1, andThen_error]
  have h3 : evaluateFormula (i + 3) cycState "b1" cycFormulaB1 [] "a1" = .error .fuelout := by
    show andThen (evalArgs (i + 2) cycState "b1" [.ref "c1", .num 1] [] "a1") _ = .error .fuelout
    rw [h2, andThen_error]
  show andThen (evaluateFormula (i + 3) cycState "b1" cycFormulaB1 [] "a1") _ = .error .fuelout
  rw [h3, andThen_error]

/-- Symmetrically, evaluating `c1` in `cycState` reaches `b1` after four
fuel decrements with the memo still empty. -/
theorem cycStepC (i : Nat)
    (h : evaluateAndUpdate i cycState "b1" [] "a1" = .error .fuelout) :
    evaluateAndUpdate (i + 4) cycState "c1" [] "a1" = .error .fuelout := by
  have h1 : evaluateFormula (i + 1) cycState "c1" (.ref "b1") [] "a1" = .error .fuelout := h
  have h2 : evalArgs (i + 2) cycState "c1" [.ref "b1", .num 1] [] "a1" = .error .fuelout := by
    show andThen (evaluateFormula (i + 1) cycState "c1" (.ref "b1") [] "a1") _ = .error .fuelout
    rw [h1, andThen_error]
  have h3 : evaluateFormula (i + 3) cycState "c1" cycFormulaC1 [] "a1" = .error .fuelout := by
    show andThen (evalArgs (i + 2) cycState "c1" [.ref "b1", .num 1] [] "a1") _ = .error .fuelout
    rw [h2, andThen_error]
  show andThen (evaluateFormula (i + 3) cycState "c1" cycFormulaC1 [] "a1") _ = .error .fuelout
  rw [h3, andThen_error]

/-- In `cycState` the mutual recursion between `b1` and `c1` never leaves
the `b1`/`c1` loop: the cycle check never fires (neither target equals the
propagation parent `a1`), the memo never grows, and every fuel bound is
exhausted. -/
theorem cycLoop (fuel : Nat) :
    evaluateAndUpdate fuel cycState "b1" [] "a1" = .error .fuelout ∧
    evaluateAndUpdate fuel cycState "c1" [] "a1" = .error .fuelout := by
  induction fuel using Nat.strong_induction_on with
  | _ fuel ih =>
    match fuel with
    | 0 => exact ⟨rfl, rfl⟩
    | 1 => exact ⟨rfl, rfl⟩
    | 2 => exact ⟨rfl, rfl⟩
    | 3 => exact ⟨rfl, rfl⟩
    | (i + 4) =>
      exact ⟨cycStepB i (ih i (by omega)).2, cycStepC i (ih i (by omega)).1⟩

/-- Evaluating the freshly staged `a1 = "b1"` in `cycState` enters the
`b1`/`c1` loop at once, so it exhausts every fuel bound. -/
theorem cycTop (fuel : Nat) :
    evaluateAndUpdate fuel cycState "a1" [] "a1" = .error .fuelout := by
  match fuel with
  | 0 => rfl
  | 1 => rfl
  | (f + 2) =>
    have h1 : evaluateFormula (f + 1) cycState "a1" (.ref "b1") [] "a1" = .error .fuelout :=
      (cycLoop f).1
    show andThen (evaluateFormula (f + 1) cycState "a1" (.ref "b1") [] "a1") _ = .error .fuelout
    rw [h1, andThen_error]

/-- `eval` of `a1 = "b1"` on the post-rollback state (committed `b1`,
staging `b1`/`c1` cycle) exhausts every fuel bound: the source recursion
does not terminate there. -/
theorem cycNoFuelSuffices (fuel : Nat) :
    (eval fuel ⟨[("b1", cycFormulaB1)], [("b1", cycFormulaB1), ("c1", cycFormulaC1)]⟩
      "a1" (some (.ref "b1"))).1 = .fuelout := by
  have h := cycTop fuel
  simp only [eval]
  rw [show (objSet [("b1", cycFormulaB1), ("c1", cycFormulaC1)] "a1" (.ref "b1")) =
      cycState.shadowCells from rfl]
  rw [show ({ cells := [("b1", cycFormulaB1)], shadowCells := cycState.shadowCells } :
      Spreadsheet) = cycState from rfl]
  rw [h]

-- ======================================================================
-- Claim theorems
-- ======================================================================

/-- Claim C1 (refuted, code bug): the update map returned by a successful
`eval` is claimed to contain every transitive dependent of the edited cell.
On the chain `b1 = "a1+1"`, `c1 = "b1+1"` (both committed by prior `eval`
calls, and dependency of `b1` on `a1` and of `c1` on `b1` witnessed by
`isDependent`), editing `a1` to the constant `5` returns the map
`{a1: 5, b1: 6}` only: the transitive dependent `c1` — recomputed to `7`
during propagation — is stripped by the `findDependentCells2` deletion
loop, which removes every cell that is not a DIRECT dependent of the
edited cell. -/
theorem c1_update_map_omits_transitive_dependent :
    eval 30 ⟨[], []⟩ "b1" (some (.app "+" [.ref "a1", .num 1])) =
      (.ok [("b1", 1)],
        ⟨[("b1", .app "+" [.ref "a1", .num 1])], [("b1", .app "+" [.ref "a1", .num 1])]⟩) ∧
    eval 30 ⟨[("b1", .app "+" [.ref "a1", .num 1])], [("b1", .app "+" [.ref "a1", .num 1])]⟩
        "c1" (some (.app "+" [.ref "b1", .num 1])) =
      (.ok [("c1", 2)],
        ⟨[("b1", .app "+" [.ref "a1", .num 1]), ("c1", .app "+" [.ref "b1", .num 1])],
         [("b1", .app "+" [.ref "a1", .num 1]), ("c1", .app "+" [.ref "b1", .num 1])]⟩) ∧
    isDependent (.app "+" [.ref "a1", .num 1]) "b1" "a1" = true ∧
    isDependent (.app "+" [.ref "b1", .num 1]) "c1" "b1" = true ∧
    (eval 30 ⟨[("b1", .app "+" [.ref "a1", .num 1]), ("c1", .app "+" [.ref "b1", .num 1])],
              [("b1", .app "+" [.ref "a1", .num 1]), ("c1", .app "+" [.ref "b1", .num 1])]⟩
        "a1" (some (.num 5))).1 =
      .ok [("a1", 5), ("b1", 6)] :=
  ⟨rfl, rfl, rfl, rfl, rfl⟩

/-- Claim C2 (refuted, code bug): rollback after a circular-reference
failure is claimed to be total.  After `a1 = "b1+1"` commits, the edit
`b1 = "a1+1"` fails with `CIRCULAR_REF`; `b1` had no prior committed entry,
so the claim requires the staged bad AST to be removed — but `recoverCell`
only restores from a committed entry and removes nothing, leaving the bad
`b1` formula staged (`objGet` finds it in staging, not in committed). -/
theorem c2_failed_rollback_keeps_dangling_staged_ast :
    eval 30 ⟨[], []⟩ "a1" (some (.app "+" [.ref "b1", .num 1])) =
      (.ok [("a1", 1)],
        ⟨[("a1", .app "+" [.ref "b1", .num 1])], [("a1", .app "+" [.ref "b1", .num 1])]⟩) ∧
    eval 30 ⟨[("a1", .app "+" [.ref "b1", .num 1])], [("a1", .app "+" [.ref "b1", .num 1])]⟩
        "b1" (some (.app "+" [.ref "a1", .num 1])) =
      (.err .CIRCULAR_REF,
        ⟨[("a1", .app "+" [.ref "b1", .num 1])],
         [("a1", .app "+" [.ref "b1", .num 1]), ("b1", .app "+" [.ref "a1", .num 1])]⟩) ∧
    objGet ([("a1", Ast.app "+" [.ref "b1", .num 1]),
             ("b1", Ast.app "+" [.ref "a1", .num 1])] : Smap) "b1" =
      some (.app "+" [.ref "a1", .num 1]) ∧
    objGet ([("a1", Ast.app "+" [.ref "b1", .num 1])] : Smap) "b1" = none :=
  ⟨rfl, rfl, rfl, rfl⟩

/-- Claim C3 (refuted, code bug): `shadowCells` is claimed to equal `cells`
after every `eval` call returns.  A self-referencing edit of the empty cell
`a1` on a fresh spreadsheet fails with `CIRCULAR_REF` and leaves the bad
AST staged (there was no committed entry to restore), so afterwards the
staging map holds one entry while the committed map is empty. -/
theorem c3_staging_differs_from_committed_after_failed_eval :
    eval 30 ⟨[], []⟩ "a1" (some (.app "+" [.ref "a1", .num 1])) =
      (.err .CIRCULAR_REF, ⟨[], [("a1", .app "+" [.ref "a1", .num 1])]⟩) ∧
    (⟨[], [("a1", .app "+" [.ref "a1", .num 1])]⟩ : Spreadsheet).shadowCells ≠
      (⟨[], [("a1", .app "+" [.ref "a1", .num 1])]⟩ : Spreadsheet).cells :=
  ⟨rfl, fun h => List.noConfusion h⟩

/-- Claim C4 counterexample: the claim says the `ref` case recurses with
`parentCell` updated to the cell currently being expanded (the cell whose
formula holds the reference, here `basecellId = "c1"`).  In `refDemo`,
evaluating `ref a1` at base `c1` with parent `b1` satisfies the claim's
guards (`a1 ≠ b1`, `a1` staged, `a1` not memoized), yet the code throws
`CircularReferenceError` (it recursed with the OLD parent `b1`, and `a1`'s
formula references `b1`), while the recursion the claim describes —
parent updated to `c1` — returns the value `7`. -/
theorem c4_counterexample_parent_not_rebased :
    ¬ (("a1" : CellId) = "b1") ∧
    objGet refDemo.shadowCells "a1" = some (.ref "b1") ∧
    objGet ([] : Updates) "a1" = none ∧
    ¬ (evaluateFormula 30 refDemo "c1" (.ref "a1") [] "b1" =
       evaluateAndUpdate 29 refDemo "a1" [] "c1") := by
  refine ⟨by decide, rfl, rfl, fun h => ?_⟩
  rw [show evaluateFormula 30 refDemo "c1" (.ref "a1") [] "b1" =
      .error (.circular [("a1", .ref "b1"), ("b1", .num 7)]) from rfl] at h
  rw [show evaluateAndUpdate 29 refDemo "a1" [] "c1" =
      .ok (7, [("b1", 7), ("a1", 7)]) from rfl] at h
  exact Except.noConfusion h

/-- Claim C4 as amended: when the evaluator resolves a `Ref` node to a
target cell that is not the parent cell, is present in staging and is not
yet memoized, it recursively evaluates the target cell's AST via
`evaluateAndUpdate` — which stores the result in the memo and returns it —
with the `parentCellId` parameter passed through UNCHANGED, not rebased to
the cell whose formula contains the reference. -/
theorem c4_ref_recursion_keeps_parent (fuel : Nat) (ss : Spreadsheet)
    (basecellId target : CellId) (updatedCells : Updates) (parentCellId : CellId)
    (a : Ast)
    (hpar : ¬ (target = parentCellId))
    (hstag : objGet ss.shadowCells target = some a)
    (hmemo : objGet updatedCells target = none) :
    evaluateFormula (fuel + 1) ss basecellId (.ref target) updatedCells parentCellId =
      evaluateAndUpdate fuel ss target updatedCells parentCellId := by
  show (if target = parentCellId then
          Except.error (.circular (recoverCell ss parentCellId).shadowCells)
        else
          match objGet ss.shadowCells target with
          | none => .ok (0, updatedCells)
          | some _ =>
            match objGet updatedCells target with
            | some v => .ok (v, updatedCells)
            | none => evaluateAndUpdate fuel ss target updatedCells parentCellId) =
      evaluateAndUpdate fuel ss target updatedCells parentCellId
  rw [if_neg hpar, hstag, hmemo]

/-- Claim C4 witness: the amended equation at a concrete input — target
`b1` staged in `refDemo`, distinct from parent `a1`, absent from the empty
memo — where the recursion indeed receives the unchanged parent `a1`. -/
theorem c4_ref_recursion_keeps_parent_witness :
    ¬ (("b1" : CellId) = "a1") ∧
    objGet refDemo.shadowCells "b1" = some (.num 7) ∧
    objGet ([] : Updates) "b1" = none ∧
    evaluateFormula 30 refDemo "c1" (.ref "b1") [] "a1" =
      evaluateAndUpdate 29 refDemo "b1" [] "a1" :=
  ⟨by decide, rfl, rfl,
    c4_ref_recursion_keeps_parent 29 refDemo "c1" "b1" [] "a1" (.num 7) (by decide) rfl rfl⟩

/-- Claim C5 (confirmed): a self-referencing edit of `a1` (previously
committed as the constant `5`) fails with `CIRCULAR_REF` and both the
committed and the staging entry for `a1` still hold the prior formula; and
after `a1 = "b1+1"` succeeds with value `1` (b1 empty), the edit
`b1 = "a1+1"` fails with `CIRCULAR_REF`, the committed store is exactly as
before the failing call, and `b1` still has no committed entry. -/
theorem c5_circular_ref_preserves_committed_state :
    eval 30 ⟨[], []⟩ "a1" (some (.num 5)) =
      (.ok [("a1", 5)], ⟨[("a1", .num 5)], [("a1", .num 5)]⟩) ∧
    eval 30 ⟨[("a1", .num 5)], [("a1", .num 5)]⟩ "a1" (some (.app "+" [.ref "a1", .num 1])) =
      (.err .CIRCULAR_REF, ⟨[("a1", .num 5)], [("a1", .num 5)]⟩) ∧
    eval 30 ⟨[], []⟩ "a1" (some (.app "+" [.ref "b1", .num 1])) =
      (.ok [("a1", 1)],
        ⟨[("a1", .app "+" [.ref "b1", .num 1])], [("a1", .app "+" [.ref "b1", .num 1])]⟩) ∧
    eval 30 ⟨[("a1", .app "+" [.ref "b1", .num 1])], [("a1", .app "+" [.ref "b1", .num 1])]⟩
        "b1" (some (.app "+" [.ref "a1", .num 1])) =
      (.err .CIRCULAR_REF,
        ⟨[("a1", .app "+" [.ref "b1", .num 1])],
         [("a1", .app "+" [.ref "b1", .num 1]), ("b1", .app "+" [.ref "a1", .num 1])]⟩) ∧
    objGet ([("a1", Ast.app "+" [.ref "b1", .num 1])] : Smap) "b1" = none :=
  ⟨rfl, rfl, rfl, rfl, rfl⟩

/-- Claim C6 (confirmed): when the expression fails to parse, `eval`
returns an error `Result` with code `SYNTAX` and the engine state — both
the committed and the staging map — is exactly as before the call: the
check precedes any staging. -/
theorem c6_syntax_error_returns_state_unchanged (fuel : Nat) (ss : Spreadsheet)
    (cellId : CellId) :
    eval fuel ss cellId none = (.err .SYNTAX, ss) := rfl

/-- Claim C7 (refuted, code bug): `eval` is claimed to always terminate,
with the cycle check ending the recursion when a genuine cycle exists.
The reachable history `b1 = "c1+1"` (ok, `c1` empty), then `c1 = "b1+1"`
(`CIRCULAR_REF`, but the partial rollback leaves the bad `c1` staged)
produces a staged two-cell reference cycle; the next edit `a1 = "b1"` — a
state with three distinct reachable cells — recurses between `b1` and `c1`
forever: the cycle check never fires (neither target ever equals the
propagation parent `a1`), and the evaluation exhausts EVERY fuel bound. -/
theorem c7_eval_nonterminating_on_reachable_state :
    eval 30 ⟨[], []⟩ "b1" (some cycFormulaB1) =
      (.ok [("b1", 1)], ⟨[("b1", cycFormulaB1)], [("b1", cycFormulaB1)]⟩) ∧
    eval 30 ⟨[("b1", cycFormulaB1)], [("b1", cycFormulaB1)]⟩ "c1" (some cycFormulaC1) =
      (.err .CIRCULAR_REF,
        ⟨[("b1", cycFormulaB1)], [("b1", cycFormulaB1), ("c1", cycFormulaC1)]⟩) ∧
    ∀ fuel : Nat,
      (eval fuel ⟨[("b1", cycFormulaB1)], [("b1", cycFormulaB1), ("c1", cycFormulaC1)]⟩
        "a1" (some (.ref "b1"))).1 = .fuelout :=
  ⟨rfl, rfl, cycNoFuelSuffices⟩

/-- Claim C8 (confirmed): editing a cell to a numeric constant on an empty
spreadsheet yields exactly that cell with that value (`eval "a1" "5"` gives
`{a1: 5}` and commits), and after `b1 = "a1+1"` has been set,
`eval "a1" "5"` yields the map `{a1: 5, b1: 6}`. -/
theorem c8_constant_edit_and_dependent_chain :
    eval 30 ⟨[], []⟩ "a1" (some (.num 5)) =
      (.ok [("a1", 5)], ⟨[("a1", .num 5)], [("a1", .num 5)]⟩) ∧
    eval 30 ⟨[], []⟩ "b1" (some (.app "+" [.ref "a1", .num 1])) =
      (.ok [("b1", 1)],
        ⟨[("b1", .app "+" [.ref "a1", .num 1])], [("b1", .app "+" [.ref "a1", .num 1])]⟩) ∧
    (eval 30 ⟨[("b1", .app "+" [.ref "a1", .num 1])], [("b1", .app "+" [.ref "a1", .num 1])]⟩
        "a1" (some (.num 5))).1 =
      .ok [("a1", 5), ("b1", 6)] :=
  ⟨rfl, rfl, rfl⟩

/-- Claim C9 (confirmed): an `App` node evaluates its operands left to
right (`evalArgs` evaluates the head operand first and threads its memo
into the rest) and then applies the operator via the fixed `FNS` table,
where `-` is binary subtraction on two operands and unary negation on one,
alongside `+`, `*`, `/`, `min`, `max`; `eval "a1" "-(3)"` yields `-3` and
`eval "a1" "5-2"` yields `3`; and a reference to a cell with no staging
entry evaluates to `0`. -/
theorem c9_app_operator_semantics (fuel : Nat) (ss : Spreadsheet)
    (basecellId target : CellId) (updatedCells : Updates) (parentCellId : CellId)
    (fn : String) (kid : Ast) (kids rest : List Ast) (a b : Int)
    (hpar : ¬ (target = parentCellId))
    (hstag : objGet ss.shadowCells target = none) :
    (evaluateFormula (fuel + 1) ss basecellId (.app fn kids) updatedCells parentCellId =
      andThen (evalArgs fuel ss basecellId kids updatedCells parentCellId)
        (fun au =>
          match FNS fn au.1 with
          | some r => .ok (r, au.2)
          | none => .error .fault)) ∧
    (evalArgs (fuel + 1) ss basecellId (kid :: rest) updatedCells parentCellId =
      andThen (evaluateFormula fuel ss basecellId kid updatedCells parentCellId)
        (fun vu =>
          andThen (evalArgs fuel ss basecellId rest vu.2 parentCellId)
            (fun vsu => .ok (vu.1 :: vsu.1, vsu.2)))) ∧
    FNS "+" [a, b] = some (a + b) ∧
    FNS "-" [a] = some (-a) ∧
    FNS "-" [a, b] = some (a - b) ∧
    FNS "*" [a, b] = some (a * b) ∧
    FNS "/" [a, b] = some (a / b) ∧
    FNS "min" [a, b] = some (min a b) ∧
    FNS "max" [a, b] = some (max a b) ∧
    (evaluateFormula (fuel + 1) ss basecellId (.ref target) updatedCells parentCellId =
      .ok (0, updatedCells)) ∧
    (eval 30 ⟨[], []⟩ "a1" (some (.app "-" [.num 3]))).1 = .ok [("a1", -3)] ∧
    (eval 30 ⟨[], []⟩ "a1" (some (.app "-" [.num 5, .num 2]))).1 = .ok [("a1", 3)] := by
  refine ⟨rfl, rfl, rfl, rfl, rfl, rfl, rfl, rfl, rfl, ?_, rfl, rfl⟩
  show (if target = parentCellId then
          Except.error (.circular (recoverCell ss parentCellId).shadowCells)
        else
          match objGet ss.shadowCells target with
          | none => .ok (0, updatedCells)
          | some _ =>
            match objGet updatedCells target with
            | some v => .ok (v, updatedCells)
            | none => evaluateAndUpdate fuel ss target updatedCells parentCellId) =
      .ok (0, updatedCells)
  rw [if_neg hpar, hstag]

/-- Claim C9 witness: the operator-semantics conjunction at a concrete
input — base `a1`, target `b1` absent from an empty spreadsheet, parent
`a1`, operator `+`, operand lists `[]` and `[1]`, arguments `1` and `2`. -/
theorem c9_app_operator_semantics_witness :
    ¬ (("b1" : CellId) = "a1") ∧
    objGet (⟨[], []⟩ : Spreadsheet).shadowCells "b1" = none ∧
    ((evaluateFormula 1 ⟨[], []⟩ "a1" (.app "+" []) [] "a1" =
      andThen (evalArgs 0 ⟨[], []⟩ "a1" [] [] "a1")
        (fun au =>
          match FNS "+" au.1 with
          | some r => .ok (r, au.2)
          | none => .error .fault)) ∧
    (evalArgs 1 ⟨[], []⟩ "a1" [Ast.num 1] [] "a1" =
      andThen (evaluateFormula 0 ⟨[], []⟩ "a1" (.num 1) [] "a1")
        (fun vu =>
          andThen (evalArgs 0 ⟨[], []⟩ "a1" [] vu.2 "a1")
            (fun vsu => .ok (vu.1 :: vsu.1, vsu.2)))) ∧
    FNS "+" [1, 2] = some (1 + 2) ∧
    FNS "-" [1] = some (-1) ∧
    FNS "-" [1, 2] = some (1 - 2) ∧
    FNS "*" [1, 2] = some (1 * 2) ∧
    FNS "/" [1, 2] = some (1 / 2) ∧
    FNS "min" [1, 2] = some (min 1 2) ∧
    FNS "max" [1, 2] = some (max 1 2) ∧
    (evaluateFormula 1 ⟨[], []⟩ "a1" (.ref "b1") [] "a1" = .ok (0, [])) ∧
    (eval 30 ⟨[], []⟩ "a1" (some (.app "-" [.num 3]))).1 = .ok [("a1", -3)] ∧
    (eval 30 ⟨[], []⟩ "a1" (some (.app "-" [.num 5, .num 2]))).1 = .ok [("a1", 3)]) :=
  ⟨by decide, rfl,
    c9_app_operator_semantics 0 ⟨[], []⟩ "a1" "b1" [] "a1" "+" (.num 1) [] [] 1 2
      (by decide) rfl⟩

/-- Claim C10 (confirmed): when evaluation throws anything other than a
`CircularReferenceError` — e.g. an operator outside the fixed table —
`eval` re-throws it (`fault`) instead of returning an error `Result`,
performing neither commit nor rollback: the committed map is untouched and
the staged AST for the edited cell is still in the staging map, which (at
the concrete input, an unknown operator `%` on a fresh spreadsheet) is
left differing from the committed map. -/
theorem c10_fault_skips_commit_and_rollback (fuel : Nat) (ss : Spreadsheet)
    (cellId : CellId) (ast : Ast)
    (h : evaluateAndUpdate fuel
        (Spreadsheet.mk ss.cells (objSet ss.shadowCells cellId ast)) cellId [] cellId =
      .error .fault) :
    (eval fuel ss cellId (some ast) =
      (.fault, Spreadsheet.mk ss.cells (objSet ss.shadowCells cellId ast)) ∧
     objGet (objSet ss.shadowCells cellId ast) cellId = some ast) ∧
    eval 30 ⟨[], []⟩ "a1" (some (.app "%" [.num 1, .num 2])) =
      (.fault, ⟨[], [("a1", .app "%" [.num 1, .num 2])]⟩) ∧
    (⟨[], [("a1", .app "%" [.num 1, .num 2])]⟩ : Spreadsheet).shadowCells ≠
      (⟨[], [("a1", .app "%" [.num 1, .num 2])]⟩ : Spreadsheet).cells := by
  refine ⟨⟨?_, objGet_objSet ss.shadowCells cellId ast⟩, rfl, fun hh => List.noConfusion hh⟩
  simp only [eval]
  rw [h]

/-- Claim C10 witness: the fault contract at the concrete input `a1 = "1%2"`
(unknown operator `%`) on a fresh spreadsheet. -/
theorem c10_fault_skips_commit_and_rollback_witness :
    evaluateAndUpdate 30
        (Spreadsheet.mk ([] : Smap) (objSet ([] : Smap) "a1" (.app "%" [.num 1, .num 2])))
        "a1" [] "a1" =
      .error .fault ∧
    ((eval 30 ⟨[], []⟩ "a1" (some (.app "%" [.num 1, .num 2])) =
      (.fault,
        Spreadsheet.mk ([] : Smap) (objSet ([] : Smap) "a1" (.app "%" [.num 1, .num 2]))) ∧
     objGet (objSet ([] : Smap) "a1" (Ast.app "%" [.num 1, .num 2])) "a1" =
      some (.app "%" [.num 1, .num 2])) ∧
    eval 30 ⟨[], []⟩ "a1" (some (.app "%" [.num 1, .num 2])) =
      (.fault, ⟨[], [("a1", .app "%" [.num 1, .num 2])]⟩) ∧
    (⟨[], [("a1", .app "%" [.num 1, .num 2])]⟩ : Spreadsheet).shadowCells ≠
      (⟨[], [("a1", .app "%" [.num 1, .num 2])]⟩ : Spreadsheet).cells) :=
  ⟨rfl, c10_fault_skips_commit_and_rollback 30 ⟨[], []⟩ "a1" (.app "%" [.num 1, .num 2]) rfl⟩
